import Mathlib

/-!
Shallow embedding of `src/script/convert_themes.py` (zqlz theme converter).

The script converts ZQLZ theme JSON documents into Zed's native theme
format.  Decoded JSON values are modelled by `JValue`; Python dicts (as
produced by `json.load`, so insertion-ordered with unique keys) are
modelled by association lists `Dict`.  Python's `dict.get(k, default)`
is `Dict.getD`, `dict.get(k)` (default `None`) is `Dict.getN`.
-/

namespace ConvertThemes

/-- A decoded JSON value, as handled by the Python script after
`json.load`.  Numbers are modelled as integers (no claim depends on
float behaviour). -/
inductive JValue where
  | null
  | bool (b : Bool)
  | num (n : Int)
  | str (s : String)
  | arr (xs : List JValue)
  | obj (fields : List (String × JValue))

/-- A Python dict of string keys, in insertion order. -/
abbrev Dict := List (String × JValue)

/-- Python `d.get(k, dflt)`: the value at `k` when the key is present
(whatever the value is, including `None` or `""`), else `dflt`. -/
def Dict.getD (d : Dict) (k : String) (dflt : JValue) : JValue :=
  match d.lookup k with
  | some v => v
  | none => dflt

/-- Python `d.get(k)` with no default: the value at `k`, or `None`. -/
def Dict.getN (d : Dict) (k : String) : JValue :=
  Dict.getD d k JValue.null

/-- Python truthiness of a JSON-decoded value, as used by
`if font_style:` in `convert_syntax`. -/
def truthy : JValue → Bool
  | .null => false
  | .bool b => b
  | .num n => n != 0
  | .str s => s != ""
  | .arr xs => !xs.isEmpty
  | .obj fs => !fs.isEmpty

/-- Python `repr()` of a JSON-decoded value (used through `str()` for
containers).  String escaping inside `repr` of a string is not
reproduced (no claim exercises it: the script only ever formats the
result of `highlight.get(...)`, a plain colour string in every input
the claims concern). -/
def pyRepr : JValue → String
  | .null => "None"
  | .bool true => "True"
  | .bool false => "False"
  | .num n => toString n
  | .str s => "'" ++ s ++ "'"
  | .arr xs => "[" ++ String.intercalate ", " (xs.attach.map (fun v => pyRepr v.1)) ++ "]"
  | .obj fs =>
      "\x7b" ++
        String.intercalate ", "
          (fs.attach.map (fun p => "'" ++ p.1.1 ++ "': " ++ pyRepr p.1.2)) ++
      "\x7d"
decreasing_by
  · have := List.sizeOf_lt_of_mem v.2
    simp_all; omega
  · obtain ⟨⟨a, b⟩, hm⟩ := p
    have := List.sizeOf_lt_of_mem hm
    simp_all; omega

/-- Python `str()` / f-string formatting of a JSON-decoded value:
`str` values format as themselves, everything else as its `repr`. -/
def pyStr : JValue → String
  | .str s => s
  | v => pyRepr v

/-- Whether a value is a Python dict (`isinstance(value, dict)`), and
its fields if so. -/
def asObj : JValue → Option Dict
  | .obj fs => some fs
  | _ => none

/-- The per-entry output dict built by `convert_syntax` for one raw
entry whose value is the mapping `fields`:
`entry = {"color": color}` plus `font_style` / `font_weight` when
truthy. -/
def synEntry (fields : Dict) : Dict :=
  let color := Dict.getD fields "color" (.str "")
  let fstyle := Dict.getN fields "font_style"
  let fweight := Dict.getN fields "font_weight"
  let entry : Dict := [("color", color)]
  let entry := if truthy fstyle then entry ++ [("font_style", fstyle)] else entry
  if truthy fweight then entry ++ [("font_weight", fweight)] else entry

/-- `convert_syntax(old_syntax)` from the script: iterate the raw
syntax mapping in order; entries whose value is a dict produce an
output entry via `synEntry`, all other entries are skipped.  A Python
dict iterates its (unique) keys in insertion order and
`syntax[key] = entry` appends a fresh key, so the output is the list
of converted entries in input order. -/
def convert_syn : Dict → Dict
  | [] => []
  | (k, v) :: rest =>
      match v with
      | .obj fields => (k, .obj (synEntry fields)) :: convert_syn rest
      | _ => convert_syn rest

/-- Python `mode == "light"` where the right-hand side is the string
literal: true exactly for the string value `"light"`. -/
def isLight : JValue → Bool
  | .str s => s == "light"
  | _ => false

/-- The fixed `players` constant from the script. -/
def players : JValue :=
  .arr [
    .obj [("cursor", .str "#7aa2f7"), ("background", .str "#7aa2f7"), ("selection", .str "#364A82")],
    .obj [("cursor", .str "#9ece6a"), ("background", .str "#9ece6a"), ("selection", .str "#4A572A")],
    .obj [("cursor", .str "#e0af68"), ("background", .str "#e0af68"), ("selection", .str "#774A1A")],
    .obj [("cursor", .str "#f7768e"), ("background", .str "#f7768e"), ("selection", .str "#7F3A3A")],
    .obj [("cursor", .str "#bb9af7"), ("background", .str "#bb9af7"), ("selection", .str "#5A4A7A")],
    .obj [("cursor", .str "#7dcfff"), ("background", .str "#7dcfff"), ("selection", .str "#2A4A5A")]]

/-- The `style` dict literal of `convert_theme`, given the extracted
`colors` and `highlight` dicts and the already-converted `syntax`
sub-dict.  Each entry transcribes one line of the Python dict literal
(source lines 41-241); f-string defaults such as
`f"{highlight.get('conflict', '#f7768e')}11"` become
`pyStr (...) ++ "11"`. -/
def mkStyle (colors highlight : Dict) (syn_out : Dict) : Dict :=
  [("background", Dict.getD colors "background" (.str "#1a1b26")),
   ("text", Dict.getD colors "foreground" (.str "#c0caf5")),
   ("text.muted", Dict.getD colors "muted.foreground" (.str "#565f89")),
   ("text.accent", Dict.getD colors "foreground" (.str "#c0caf5")),
   ("text.placeholder", Dict.getD colors "muted.foreground" (.str "#565f89")),
   ("text.disabled", Dict.getD colors "muted.foreground" (.str "#565f89")),
   ("border", Dict.getD colors "border" (.str "#292e42")),
   ("border.variant", Dict.getD colors "border" (.str "#292e42")),
   ("border.focused", Dict.getD colors "primary.background" (.str "#7aa2f7")),
   ("border.selected", Dict.getD colors "primary.background" (.str "#7aa2f7")),
   ("border.disabled", Dict.getD colors "input.border" (Dict.getD colors "border" (.str "#292e42"))),
   ("border.transparent", .null),
   ("panel.background", Dict.getD colors "panel.background" (Dict.getD colors "muted.background" (.str "#292e42"))),
   ("panel.focused_border", Dict.getD colors "primary.background" (.str "#7aa2f7")),
   ("panel.indent_guide", Dict.getD colors "muted.background" (.str "#292e42")),
   ("panel.indent_guide_active", Dict.getD colors "primary.background" (.str "#7aa2f7")),
   ("elevated_surface.background", Dict.getD colors "popover.background" (Dict.getD colors "background" (.str "#1a1b26"))),
   ("surface.background", Dict.getD colors "muted.background" (.str "#292e42")),
   ("tab_bar.background", Dict.getD colors "tab_bar.background" (Dict.getD colors "title_bar.background" (.str "#161720"))),
   ("tab.active_background", Dict.getD colors "tab.active.background" (Dict.getD colors "background" (.str "#1a1b26"))),
   ("tab.inactive_background", Dict.getD colors "secondary.background" (Dict.getD colors "muted.background" (.str "#292e42"))),
   ("tab.text", Dict.getD colors "tab.foreground" (Dict.getD colors "muted.foreground" (.str "#565f89"))),
   ("tab.active_text", Dict.getD colors "tab.active.foreground" (Dict.getD colors "foreground" (.str "#c0caf5"))),
   ("title_bar.background", Dict.getD colors "title_bar.background" (.str "#161720")),
   ("title_bar.inactive_background", Dict.getD colors "title_bar.background" (.str "#161720")),
   ("toolbar.background", Dict.getD colors "panel.background" (Dict.getD colors "muted.background" (.str "#292e42"))),
   ("status_bar.background", Dict.getD colors "title_bar.background" (.str "#161720")),
   ("icon", Dict.getD colors "foreground" (.str "#c0caf5")),
   ("icon.muted", Dict.getD colors "muted.foreground" (.str "#565f89")),
   ("icon.accent", Dict.getD colors "primary.background" (.str "#7aa2f7")),
   ("icon.disabled", Dict.getD colors "muted.foreground" (.str "#565f89")),
   ("icon.placeholder", Dict.getD colors "muted.foreground" (.str "#565f89")),
   ("element.background", Dict.getD colors "secondary.background" (Dict.getD colors "muted.background" (.str "#292e42"))),
   ("element.hover", Dict.getD colors "secondary.hover.background" (.str "#31374f")),
   ("element.active", Dict.getD colors "primary.background" (.str "#7aa2f7")),
   ("element.selected", Dict.getD colors "list.active.background" (.str "#7aa2f722")),
   ("element.disabled", Dict.getD colors "muted.foreground" (.str "#565f89")),
   ("ghost_element.hover", Dict.getD colors "list.active.background" (.str "#7aa2f711")),
   ("ghost_element.active", Dict.getD colors "list.active.background" (.str "#7aa2f722")),
   ("ghost_element.selected", Dict.getD colors "list.active.background" (.str "#7aa2f722")),
   ("ghost_element.disabled", Dict.getD colors "muted.foreground" (.str "#565f89")),
   ("drop_target.background", Dict.getD colors "list.active.background" (.str "#7aa2f722")),
   ("link_text.hover", Dict.getD colors "link.hover.foreground" (Dict.getD colors "link.foreground" (.str "#7aa2f7"))),
   ("scrollbar.track.background", Dict.getD colors "scrollbar.background" (.str "#1a1b2600")),
   ("scrollbar.track.border", .null),
   ("scrollbar.thumb.background", Dict.getD colors "scrollbar.thumb.background" (.str "#414868")),
   ("scrollbar.thumb.border", .null),
   ("scrollbar.thumb.hover_background", Dict.getD colors "primary.background" (.str "#7aa2f7")),
   ("editor.background", Dict.getD highlight "editor.background" (Dict.getD colors "background" (.str "#1a1b26"))),
   ("editor.foreground", Dict.getD highlight "editor.foreground" (Dict.getD colors "foreground" (.str "#c0caf5"))),
   ("editor.gutter.background", Dict.getD highlight "editor.background" (Dict.getD colors "background" (.str "#1a1b26"))),
   ("editor.line_number", Dict.getD highlight "editor.line_number" (.str "#565f89")),
   ("editor.active_line_number", Dict.getD highlight "editor.active_line_number" (.str "#c0caf5")),
   ("editor.active_line.background", Dict.getD highlight "editor.active_line.background" (.str "#292e42")),
   ("editor.highlighted_line.background", Dict.getD highlight "editor.active_line.background" (.str "#292e42")),
   ("editor.indent_guide", Dict.getD colors "muted.background" (.str "#292e42")),
   ("editor.indent_guide_active", Dict.getD colors "primary.background" (.str "#7aa2f7")),
   ("editor.wrap_guide", Dict.getD colors "muted.background" (.str "#292e42")),
   ("editor.active_wrap_guide", Dict.getD colors "primary.background" (.str "#7aa2f7")),
   ("editor.invisible", Dict.getD colors "muted.foreground" (.str "#565f89")),
   ("editor.document_highlight.read_background", Dict.getD colors "list.active.background" (.str "#7aa2f711")),
   ("editor.document_highlight.write_background", Dict.getD colors "list.active.background" (.str "#7aa2f722")),
   ("editor.document_highlight.bracket_background", Dict.getD colors "list.active.background" (.str "#7aa2f722")),
   ("search.match_background", .str "#e0af6844"),
   ("conflict", Dict.getD highlight "conflict" (.str "#f7768e")),
   ("conflict.background", Dict.getD highlight "conflict.background" (.str (pyStr (Dict.getD highlight "conflict" (.str "#f7768e")) ++ "11"))),
   ("conflict.border", Dict.getD highlight "conflict.border" (Dict.getD highlight "conflict" (.str "#f7768e"))),
   ("created", Dict.getD highlight "created" (.str "#9ece6a")),
   ("created.background", Dict.getD highlight "created.background" (.str (pyStr (Dict.getD highlight "created" (.str "#9ece6a")) ++ "11"))),
   ("created.border", Dict.getD highlight "created.border" (Dict.getD highlight "created" (.str "#9ece6a"))),
   ("deleted", Dict.getD highlight "deleted" (.str "#f7768e")),
   ("deleted.background", Dict.getD highlight "deleted.background" (.str (pyStr (Dict.getD highlight "deleted" (.str "#f7768e")) ++ "11"))),
   ("deleted.border", Dict.getD highlight "deleted.border" (Dict.getD highlight "deleted" (.str "#f7768e"))),
   ("error", Dict.getD highlight "error" (.str "#f7768e")),
   ("error.background", Dict.getD highlight "error.background" (.str (pyStr (Dict.getD highlight "error" (.str "#f7768e")) ++ "11"))),
   ("error.border", Dict.getD highlight "error.border" (Dict.getD highlight "error" (.str "#f7768e"))),
   ("hidden", Dict.getD highlight "hidden" (.str "#565f89")),
   ("hidden.background", Dict.getN highlight "hidden.background"),
   ("hidden.border", Dict.getD highlight "hidden.border" (Dict.getD highlight "hidden" (.str "#565f89"))),
   ("hint", Dict.getD highlight "hint" (.str "#7dcfff")),
   ("hint.background", Dict.getD highlight "hint.background" (.str (pyStr (Dict.getD highlight "hint" (.str "#7dcfff")) ++ "11"))),
   ("hint.border", Dict.getD highlight "hint.border" (Dict.getD highlight "hint" (.str "#7dcfff"))),
   ("ignored", Dict.getD highlight "ignored" (.str "#565f89")),
   ("ignored.background", Dict.getN highlight "ignored.background"),
   ("ignored.border", Dict.getD highlight "ignored.border" (Dict.getD highlight "ignored" (.str "#565f89"))),
   ("info", Dict.getD highlight "info" (.str "#7aa2f7")),
   ("info.background", Dict.getD highlight "info.background" (.str (pyStr (Dict.getD highlight "info" (.str "#7aa2f7")) ++ "11"))),
   ("info.border", Dict.getD highlight "info.border" (Dict.getD highlight "info" (.str "#7aa2f7"))),
   ("modified", Dict.getD highlight "modified" (.str "#e0af68")),
   ("modified.background", Dict.getD highlight "modified.background" (.str (pyStr (Dict.getD highlight "modified" (.str "#e0af68")) ++ "11"))),
   ("modified.border", Dict.getD highlight "modified.border" (Dict.getD highlight "modified" (.str "#e0af68"))),
   ("predictive", Dict.getD highlight "predictive" (.str "#565f89")),
   ("predictive.background", Dict.getN highlight "predictive.background"),
   ("predictive.border", Dict.getD highlight "predictive.border" (Dict.getD highlight "predictive" (.str "#565f89"))),
   ("renamed", Dict.getD highlight "renamed" (.str "#7aa2f7")),
   ("renamed.background", Dict.getD highlight "renamed.background" (.str (pyStr (Dict.getD highlight "renamed" (.str "#7aa2f7")) ++ "11"))),
   ("renamed.border", Dict.getD highlight "renamed.border" (Dict.getD highlight "renamed" (.str "#7aa2f7"))),
   ("success", Dict.getD highlight "success" (.str "#9ece6a")),
   ("success.background", Dict.getD highlight "success.background" (.str (pyStr (Dict.getD highlight "success" (.str "#9ece6a")) ++ "11"))),
   ("success.border", Dict.getD highlight "success.border" (Dict.getD highlight "success" (.str "#9ece6a"))),
   ("unreachable", Dict.getD highlight "unreachable" (.str "#565f89")),
   ("unreachable.background", Dict.getN highlight "unreachable.background"),
   ("unreachable.border", Dict.getD highlight "unreachable.border" (Dict.getD highlight "unreachable" (.str "#565f89"))),
   ("warning", Dict.getD highlight "warning" (.str "#e0af68")),
   ("warning.background", Dict.getD highlight "warning.background" (.str (pyStr (Dict.getD highlight "warning" (.str "#e0af68")) ++ "11"))),
   ("warning.border", Dict.getD highlight "warning.border" (Dict.getD highlight "warning" (.str "#e0af68"))),
   ("syntax", .obj syn_out),
   ("players", players)]

/-- `convert_theme(old_theme)` from the script.  `none` models the
Python call raising (an `AttributeError` when `colors`, `highlight`
or `highlight["syntax"]` is present but not a dict, so that
`.get` / `.items()` fails); otherwise the returned dict
`{"name": ..., "appearance": ..., "style": ...}`. -/
def convert_theme (old_theme : Dict) : Option Dict := do
  let colors ← asObj (Dict.getD old_theme "colors" (.obj []))
  let highlight ← asObj (Dict.getD old_theme "highlight" (.obj []))
  let mode := Dict.getD old_theme "mode" (.str "dark")
  let appearance := if isLight mode then "light" else "dark"
  let raw_syn ← asObj (Dict.getD highlight "syntax" (.obj []))
  some [("name", Dict.getD old_theme "name" (.str "Unknown")),
        ("appearance", .str appearance),
        ("style", .obj (mkStyle colors highlight (convert_syn raw_syn)))]

/-- Python iteration `for x in v`: the element sequence when `v` is
iterable (a list yields its elements, a dict its keys, a string its
characters), `none` (a `TypeError`) otherwise. -/
def pyIter : JValue → Option (List JValue)
  | .arr xs => some xs
  | .obj fs => some (fs.map (fun kv => .str kv.1))
  | .str s => some (s.data.map (fun c => .str (String.mk [c])))
  | _ => none

/-- `mapOpt f xs`: runs `f` left to right, failing as soon as one call
fails, as the append loop in `convert_theme_file` does. -/
def mapOpt (f : JValue → Option Dict) : List JValue → Option (List Dict)
  | [] => some []
  | x :: xs => do
      let y ← f x
      let ys ← mapOpt f xs
      some (y :: ys)

/-- One loop step of `convert_theme_file`: `convert_theme(old_theme)`
on an arbitrary value, raising (`none`) when the element is not a
dict (its `.get` calls would fail). -/
def convert_elem (v : JValue) : Option Dict := do
  convert_theme (← asObj v)

/-- The pure core of `convert_theme_file` (source lines 255-266): the
output document built from a decoded input document, prior to
serialization.  `none` models the call raising; note
`old_data.get("themes", [])` — a missing `themes` key falls back to
the empty list and never raises. -/
def convert_document (old_data : Dict) : Option Dict := do
  let elems ← pyIter (Dict.getD old_data "themes" (.arr []))
  let converted ← mapOpt convert_elem elems
  some [("$schema", .str "https://zed.dev/schema/themes/v0.2.0.json"),
        ("name", Dict.getD old_data "name" (.str "Unknown")),
        ("author", Dict.getD old_data "author" (.str "Unknown")),
        ("themes", .arr (converted.map .obj))]

/-- The `style` sub-dict of a converted variant (empty when absent or
not a dict; `convert_theme` always produces one). -/
def styleOf (out : Dict) : Dict :=
  match Dict.getN out "style" with
  | .obj fs => fs
  | _ => []

/-- Shape of any successful `convert_theme` result: the three nested
dicts it read, and the output dict in terms of them. -/
theorem convert_theme_some (t out : Dict) (h : convert_theme t = some out) :
    ∃ colors highlight raw,
      asObj (Dict.getD t "colors" (.obj [])) = some colors ∧
      asObj (Dict.getD t "highlight" (.obj [])) = some highlight ∧
      asObj (Dict.getD highlight "syntax" (.obj [])) = some raw ∧
      out = [("name", Dict.getD t "name" (.str "Unknown")),
             ("appearance", .str (if isLight (Dict.getD t "mode" (.str "dark")) then "light" else "dark")),
             ("style", .obj (mkStyle colors highlight (convert_syn raw)))] := by
  rcases hc : asObj (Dict.getD t "colors" (.obj [])) with _ | colors
  · simp [convert_theme, hc] at h
  rcases hh : asObj (Dict.getD t "highlight" (.obj [])) with _ | highlight
  · simp [convert_theme, hc, hh] at h
  rcases hs : asObj (Dict.getD highlight "syntax" (.obj [])) with _ | raw
  · simp [convert_theme, hc, hh, hs] at h
  refine ⟨colors, highlight, raw, rfl, rfl, hs, ?_⟩
  simp [convert_theme, hc, hh, hs] at h
  exact h.symm

/-- The `appearance` entry of any successful conversion, as computed
from the `mode` entry of the source variant. -/
theorem out_appearance (t out : Dict) (h : convert_theme t = some out) :
    Dict.getN out "appearance" =
      .str (if isLight (Dict.getD t "mode" (.str "dark")) then "light" else "dark") := by
  obtain ⟨c, hi, r, _, _, _, rfl⟩ := convert_theme_some t out h
  rfl

/-- C5: for every source variant, the converted variant's appearance is
"light" if and only if the variant's `mode` entry is present and equal
to the string "light"; every other mode value, including an absent
`mode` key, yields appearance "dark", and no third appearance value is
ever produced. -/
theorem appearance_two_way (t out : Dict) (h : convert_theme t = some out) :
    (Dict.getN out "appearance" = .str "light" ↔ t.lookup "mode" = some (.str "light"))
    ∧ (Dict.getN out "appearance" = .str "light" ∨ Dict.getN out "appearance" = .str "dark") := by
  have ha := out_appearance t out h
  constructor
  · rw [ha]
    rcases hm : t.lookup "mode" with _ | v
    · simp [Dict.getD, hm, isLight]
    · rcases v with _ | b | n | s | xs | fs <;> simp [Dict.getD, hm, isLight]
  · rw [ha]
    cases hi : isLight (Dict.getD t "mode" (.str "dark")) <;> simp

def c5w_t : Dict := [("mode", .str "light")]

def c5w_out : Dict := (convert_theme c5w_t).getD []

/-- Witness for C5 at the variant `{"mode": "light"}`. -/
theorem appearance_two_way_witness :
    (Dict.getN c5w_out "appearance" = .str "light" ↔ c5w_t.lookup "mode" = some (.str "light"))
    ∧ (Dict.getN c5w_out "appearance" = .str "light"
        ∨ Dict.getN c5w_out "appearance" = .str "dark") :=
  appearance_two_way c5w_t c5w_out rfl

/-- A present key wins in `Dict.getD`, whatever its value. -/
theorem getD_present (d : Dict) (k : String) (dflt v : JValue)
    (h : d.lookup k = some v) : Dict.getD d k dflt = v := by
  simp [Dict.getD, h]

/-- An absent key falls back to the default in `Dict.getD`. -/
theorem getD_absent (d : Dict) (k : String) (dflt : JValue)
    (h : d.lookup k = none) : Dict.getD d k dflt = dflt := by
  simp [Dict.getD, h]

/-- The ten diagnostic categories with an alpha-derived background
default, each with its literal base default from the style table. -/
def alphaCats : List (String × String) :=
  [("error", "#f7768e"), ("warning", "#e0af68"), ("info", "#7aa2f7"),
   ("hint", "#7dcfff"), ("success", "#9ece6a"), ("conflict", "#f7768e"),
   ("created", "#9ece6a"), ("deleted", "#f7768e"), ("modified", "#e0af68"),
   ("renamed", "#7aa2f7")]

/-- Core of the alpha-suffix argument, for one category: when the
style table resolves the base as `highlight.get(cat, dflt)` and the
background as `highlight.get(cat ++ ".background", str(base) + "11")`,
an absent override and a string-valued base `b` force the background
to be `b ++ "11"`. -/
theorem alpha_case (highlight st : Dict) (cat dflt b : String)
    (h1 : st.lookup cat = some (Dict.getD highlight cat (.str dflt)))
    (h2 : st.lookup (cat ++ ".background")
        = some (Dict.getD highlight (cat ++ ".background")
            (.str (pyStr (Dict.getD highlight cat (.str dflt)) ++ "11"))))
    (hover : highlight.lookup (cat ++ ".background") = none)
    (hbase : st.lookup cat = some (.str b)) :
    st.lookup (cat ++ ".background") = some (.str (b ++ "11")) := by
  have hb : Dict.getD highlight cat (.str dflt) = .str b := by
    rw [h1] at hbase
    exact Option.some.inj hbase
  rw [h2, getD_absent _ _ _ hover, hb]
  rfl

/-- C3: for each of the ten categories error, warning, info, hint,
success, conflict, created, deleted, modified, renamed: the base field
resolves as `highlight.get(cat, dflt)` with the category's literal
default, and when the highlight mapping has no explicit
`cat ++ ".background"` override and the resolved base is the string
`b`, the resolved background is exactly `b ++ "11"` (string
concatenation).  In particular, when the base itself fell back to its
literal default `dflt`, the background is `dflt ++ "11"`. -/
theorem alpha_background_suffix (t out highlight : Dict)
    (hh : asObj (Dict.getD t "highlight" (.obj [])) = some highlight)
    (hout : convert_theme t = some out)
    (cat dflt : String) (hcat : (cat, dflt) ∈ alphaCats)
    (hover : highlight.lookup (cat ++ ".background") = none)
    (b : String) (hbase : (styleOf out).lookup cat = some (.str b)) :
    (styleOf out).lookup cat = some (Dict.getD highlight cat (.str dflt))
    ∧ (styleOf out).lookup (cat ++ ".background") = some (.str (b ++ "11")) := by
  obtain ⟨c, hi, r, hc2, hh2, hs2, rfl⟩ := convert_theme_some t out hout
  rw [hh] at hh2
  obtain rfl := Option.some.inj hh2
  fin_cases hcat <;>
    exact ⟨rfl, alpha_case _ _ _ _ b rfl rfl hover hbase⟩

def c3w_t : Dict := [("highlight", .obj [("error", .str "#ff0000")])]

def c3w_out : Dict := (convert_theme c3w_t).getD []

/-- Witness for C3 at `highlight = {"error": "#ff0000"}` for the
`error` category. -/
theorem alpha_background_suffix_witness :
    (styleOf c3w_out).lookup "error"
        = some (Dict.getD [("error", JValue.str "#ff0000")] "error" (.str "#f7768e"))
    ∧ (styleOf c3w_out).lookup ("error" ++ ".background")
        = some (.str ("#ff0000" ++ "11")) :=
  alpha_background_suffix c3w_t c3w_out [("error", .str "#ff0000")] rfl rfl
    "error" "#f7768e" (by simp [alphaCats]) rfl "#ff0000" rfl

/-- Core of the no-background-default argument, for one category:
when the style table resolves the background as
`highlight.get(cat ++ ".background")` with no default, an absent
override yields the null value. -/
theorem null_case (highlight st : Dict) (cat : String)
    (h2 : st.lookup (cat ++ ".background")
        = some (Dict.getN highlight (cat ++ ".background")))
    (hover : highlight.lookup (cat ++ ".background") = none) :
    st.lookup (cat ++ ".background") = some .null := by
  rw [h2, Dict.getN, getD_absent _ _ _ hover]

/-- C4: for each of the four categories hidden, ignored, predictive,
unreachable: when the highlight mapping has no explicit
`cat ++ ".background"` override, the resolved background field is the
null value (serialized as JSON `null`): it is never alpha-derived and
has no literal default. -/
theorem no_background_default (t out highlight : Dict)
    (hh : asObj (Dict.getD t "highlight" (.obj [])) = some highlight)
    (hout : convert_theme t = some out)
    (cat : String) (hcat : cat ∈ ["hidden", "ignored", "predictive", "unreachable"])
    (hover : highlight.lookup (cat ++ ".background") = none) :
    (styleOf out).lookup (cat ++ ".background") = some .null := by
  obtain ⟨c, hi, r, hc2, hh2, hs2, rfl⟩ := convert_theme_some t out hout
  rw [hh] at hh2
  obtain rfl := Option.some.inj hh2
  simp only [List.mem_cons, List.not_mem_nil, or_false] at hcat
  rcases hcat with rfl | rfl | rfl | rfl <;>
    exact null_case _ _ _ rfl hover

def c4w_t : Dict := [("highlight", .obj [("hidden", .str "#101010")])]

def c4w_out : Dict := (convert_theme c4w_t).getD []

/-- Witness for C4 at `highlight = {"hidden": "#101010"}` for the
`hidden` category. -/
theorem no_background_default_witness :
    (styleOf c4w_out).lookup ("hidden" ++ ".background") = some .null :=
  no_background_default c4w_t c4w_out [("hidden", .str "#101010")] rfl rfl
    "hidden" (by simp) rfl

/-- Unfolding lemma for `List.lookup` on a cons cell. -/
theorem lookup_cons (k k' : String) (v : JValue) (rest : Dict) :
    ((k', v) :: rest).lookup k = if k == k' then some v else rest.lookup k := by
  cases h : k == k' <;> simp [List.lookup, h]

/-- A key outside a dict's key list looks up to `none`. -/
theorem lookup_none_of_not_mem (d : Dict) (k : String)
    (h : k ∉ d.map Prod.fst) : d.lookup k = none := by
  induction d with
  | nil => rfl
  | cons kv rest ih =>
      obtain ⟨k', v⟩ := kv
      simp only [List.map_cons, List.mem_cons, not_or] at h
      rw [lookup_cons, if_neg (by simp [h.1]), ih h.2]

/-- Lookup characterization of `convert_syn` on a raw syntax mapping
with (Python-dict) unique keys: a key maps to the converted entry when
its raw value is a mapping and is dropped otherwise. -/
theorem convert_syn_lookup (raw : Dict) (k : String)
    (hnd : (raw.map Prod.fst).Nodup) :
    (convert_syn raw).lookup k
      = match raw.lookup k with
        | some (.obj fs) => some (.obj (synEntry fs))
        | _ => none := by
  induction raw with
  | nil => rfl
  | cons kv rest ih =>
      obtain ⟨k', v⟩ := kv
      simp only [List.map_cons, List.nodup_cons] at hnd
      by_cases hk : k = k'
      · subst hk
        cases v <;>
          simp [convert_syn, lookup_cons, ih hnd.2,
            lookup_none_of_not_mem rest k hnd.1]
      · cases v <;> simp [convert_syn, lookup_cons, hk, ih hnd.2]

/-- The converted syntax entry always carries `color`, defaulting to
the empty string when absent. -/
theorem synEntry_color (fields : Dict) :
    (synEntry fields).lookup "color" = some (Dict.getD fields "color" (.str "")) := by
  by_cases h1 : truthy (Dict.getN fields "font_style") <;>
    by_cases h2 : truthy (Dict.getN fields "font_weight") <;>
      simp [synEntry, h1, h2, lookup_cons]

/-- The converted syntax entry carries `font_style` exactly when the
raw attribute is present and truthy. -/
theorem synEntry_fstyle (fields : Dict) :
    (synEntry fields).lookup "font_style"
      = if truthy (Dict.getN fields "font_style")
        then some (Dict.getN fields "font_style") else none := by
  by_cases h1 : truthy (Dict.getN fields "font_style") <;>
    by_cases h2 : truthy (Dict.getN fields "font_weight") <;>
      simp [synEntry, h1, h2, lookup_cons]

/-- The converted syntax entry carries `font_weight` exactly when the
raw attribute is present and truthy. -/
theorem synEntry_fweight (fields : Dict) :
    (synEntry fields).lookup "font_weight"
      = if truthy (Dict.getN fields "font_weight")
        then some (Dict.getN fields "font_weight") else none := by
  by_cases h1 : truthy (Dict.getN fields "font_style") <;>
    by_cases h2 : truthy (Dict.getN fields "font_weight") <;>
      simp [synEntry, h1, h2, lookup_cons]

/-- C6: the syntax conversion is total (it never raises): on a raw
syntax mapping with unique keys it drops every entry whose value is
not itself a mapping, converts every mapping entry, and each converted
entry always contains `color` (the empty string when absent) while
containing `font_style` and `font_weight` each exactly when that raw
attribute is present and truthy (non-empty, non-false). -/
theorem syn_conversion (raw fields : Dict) (k : String)
    (hnd : (raw.map Prod.fst).Nodup) :
    ((convert_syn raw).lookup k
      = match raw.lookup k with
        | some (.obj fs) => some (.obj (synEntry fs))
        | _ => none)
    ∧ (synEntry fields).lookup "color" = some (Dict.getD fields "color" (.str ""))
    ∧ ((synEntry fields).lookup "font_style"
        = if truthy (Dict.getN fields "font_style")
          then some (Dict.getN fields "font_style") else none)
    ∧ ((synEntry fields).lookup "font_weight"
        = if truthy (Dict.getN fields "font_weight")
          then some (Dict.getN fields "font_weight") else none) :=
  ⟨convert_syn_lookup raw k hnd, synEntry_color fields,
   synEntry_fstyle fields, synEntry_fweight fields⟩

def c6w_raw : Dict :=
  [("keyword", .obj [("color", .str "#00f"), ("font_style", .str "")]),
   ("comment", .str "#888")]

def c6w_fields : Dict := [("color", .str "#00f"), ("font_style", .str "")]

/-- Witness for C6: the string-valued `comment` entry is dropped, and
the entry `{"color": "#00f", "font_style": ""}` converts to a dict
with `color` `"#00f"` and no `font_style`/`font_weight` (empty string
and absence are not truthy). -/
theorem syn_conversion_witness :
    (convert_syn c6w_raw).lookup "comment" = none
    ∧ (synEntry c6w_fields).lookup "color" = some (.str "#00f")
    ∧ (synEntry c6w_fields).lookup "font_style" = none
    ∧ (synEntry c6w_fields).lookup "font_weight" = none := by
  obtain ⟨a, b, c, d⟩ := syn_conversion c6w_raw c6w_fields "comment" (by decide)
  exact ⟨a, b, c, d⟩

/-- C1 counterexample: the input `{name: "T"}` with no `themes` key
does not raise; the conversion yields a full output document with an
empty themes list. -/
theorem themes_missing_counterexample :
    convert_document [("name", JValue.str "T")]
      = some [("$schema", .str "https://zed.dev/schema/themes/v0.2.0.json"),
              ("name", .str "T"), ("author", .str "Unknown"), ("themes", .arr [])]
    ∧ (convert_document [("name", JValue.str "T")]).isSome = true :=
  ⟨rfl, rfl⟩

/-- C1 amended: the script defines no StructuralError.  A missing
`themes` key is not an error: `old_data.get("themes", [])` falls back
to the empty list, so the conversion returns a document with an empty
themes list.  A `themes` value that is not iterable (e.g. a number),
or a themes element that is not a mapping, raises a generic runtime
error (`TypeError`/`AttributeError`, modelled as failure) with no
output document. -/
theorem themes_missing_yields_empty (d : Dict) (hth : d.lookup "themes" = none) :
    convert_document d
      = some [("$schema", .str "https://zed.dev/schema/themes/v0.2.0.json"),
              ("name", Dict.getD d "name" (.str "Unknown")),
              ("author", Dict.getD d "author" (.str "Unknown")),
              ("themes", .arr [])]
    ∧ convert_document [("themes", JValue.num 3)] = none
    ∧ convert_document [("themes", JValue.arr [JValue.num 3])] = none := by
  refine ⟨?_, rfl, rfl⟩
  rw [convert_document, getD_absent _ _ _ hth]
  rfl

/-- Witness for C1's amended statement at the input `{name: "T"}`. -/
theorem themes_missing_yields_empty_witness :
    convert_document [("name", JValue.str "T")]
      = some [("$schema", .str "https://zed.dev/schema/themes/v0.2.0.json"),
              ("name", Dict.getD [("name", JValue.str "T")] "name" (.str "Unknown")),
              ("author", Dict.getD [("name", JValue.str "T")] "author" (.str "Unknown")),
              ("themes", .arr [])]
    ∧ convert_document [("themes", JValue.num 3)] = none
    ∧ convert_document [("themes", JValue.arr [JValue.num 3])] = none :=
  themes_missing_yields_empty [("name", JValue.str "T")] rfl

/-- A successful `mapOpt` run preserves length. -/
theorem mapOpt_length (f : JValue → Option Dict) (xs : List JValue) :
    ∀ ys, mapOpt f xs = some ys → ys.length = xs.length := by
  induction xs with
  | nil =>
      intro ys h
      simp only [mapOpt, Option.some.injEq] at h
      subst h
      rfl
  | cons x xs ih =>
      intro ys h
      simp only [mapOpt, Option.bind_eq_bind] at h
      rcases hx : f x with _ | y <;> rw [hx] at h
      · simp at h
      rcases hxs : mapOpt f xs with _ | ys' <;> rw [hxs] at h
      · simp at h
      simp only [Option.some_bind, Option.some.injEq] at h
      subst h
      simp [ih ys' hxs]

/-- A successful `mapOpt` run computes each output element from the
input element at the same index. -/
theorem mapOpt_get (f : JValue → Option Dict) (xs : List JValue) :
    ∀ ys, mapOpt f xs = some ys →
      ∀ i (hi : i < xs.length) (ho : i < ys.length),
        f (xs.get ⟨i, hi⟩) = some (ys.get ⟨i, ho⟩) := by
  induction xs with
  | nil =>
      intro ys h i hi ho
      exact absurd hi (by simp)
  | cons x xs ih =>
      intro ys h i hi ho
      simp only [mapOpt, Option.bind_eq_bind] at h
      rcases hx : f x with _ | y <;> rw [hx] at h
      · simp at h
      rcases hxs : mapOpt f xs with _ | ys' <;> rw [hxs] at h
      · simp at h
      simp only [Option.some_bind, Option.some.injEq] at h
      subst h
      cases i with
      | zero => simpa using hx
      | succ n =>
          exact ih ys' hxs n (by simpa using hi) (by simpa using ho)

/-- C7: for a well-formed source document (its `themes` value is a
sequence whose elements all convert), the output document carries the
converted variants in order: the themes list has the same length as
the source list, and the element at every index `i` is exactly the
conversion of the source variant at index `i` — no reordering,
filtering or deduplication. -/
theorem themes_order_preserved (d : Dict) (vs : List JValue) (outs : List Dict)
    (i : Nat)
    (hth : Dict.getD d "themes" (.arr []) = .arr vs)
    (hconv : mapOpt convert_elem vs = some outs)
    (hi : i < vs.length) (ho : i < outs.length) :
    convert_document d
      = some [("$schema", .str "https://zed.dev/schema/themes/v0.2.0.json"),
              ("name", Dict.getD d "name" (.str "Unknown")),
              ("author", Dict.getD d "author" (.str "Unknown")),
              ("themes", .arr (outs.map .obj))]
    ∧ outs.length = vs.length
    ∧ convert_elem (vs.get ⟨i, hi⟩) = some (outs.get ⟨i, ho⟩) := by
  refine ⟨?_, mapOpt_length _ _ _ hconv, mapOpt_get _ _ _ hconv i hi ho⟩
  rw [convert_document, hth]
  simp only [pyIter, Option.some_bind, Option.bind_eq_bind]
  rw [hconv]
  rfl

def c7w_d : Dict := [("themes", .arr [.obj [("name", .str "V1")]])]

def c7w_out : Dict := (convert_elem (.obj [("name", .str "V1")])).getD []

/-- Witness for C7 at a one-variant document. -/
theorem themes_order_preserved_witness :
    convert_document c7w_d
      = some [("$schema", .str "https://zed.dev/schema/themes/v0.2.0.json"),
              ("name", Dict.getD c7w_d "name" (.str "Unknown")),
              ("author", Dict.getD c7w_d "author" (.str "Unknown")),
              ("themes", .arr ([c7w_out].map .obj))]
    ∧ [c7w_out].length = [JValue.obj [("name", .str "V1")]].length
    ∧ convert_elem ([JValue.obj [("name", .str "V1")]].get ⟨0, by decide⟩)
        = some ([c7w_out].get ⟨0, by decide⟩) :=
  themes_order_preserved c7w_d [.obj [("name", .str "V1")]] [c7w_out] 0
    rfl rfl (by decide) (by decide)

/-- Shape of any successful `convert_document` result. -/
theorem convert_document_some (d outd : Dict) (h : convert_document d = some outd) :
    ∃ elems converted,
      pyIter (Dict.getD d "themes" (.arr [])) = some elems ∧
      mapOpt convert_elem elems = some converted ∧
      outd = [("$schema", .str "https://zed.dev/schema/themes/v0.2.0.json"),
              ("name", Dict.getD d "name" (.str "Unknown")),
              ("author", Dict.getD d "author" (.str "Unknown")),
              ("themes", .arr (converted.map .obj))] := by
  rcases he : pyIter (Dict.getD d "themes" (.arr [])) with _ | elems
  · simp [convert_document, he] at h
  rcases hm : mapOpt convert_elem elems with _ | converted
  · simp [convert_document, he, hm] at h
  refine ⟨elems, converted, rfl, hm, ?_⟩
  simp [convert_document, he, hm] at h
  exact h.symm

/-- The `name` entry of a converted variant is the source `name` with
default `"Unknown"`. -/
theorem out_name (t out : Dict) (h : convert_theme t = some out) :
    out.lookup "name" = some (Dict.getD t "name" (.str "Unknown")) := by
  obtain ⟨c, hi, r, _, _, _, rfl⟩ := convert_theme_some t out h
  rfl

/-- The `name` entry of a converted document is the source `name` with
default `"Unknown"`. -/
theorem outd_name (d outd : Dict) (h : convert_document d = some outd) :
    outd.lookup "name" = some (Dict.getD d "name" (.str "Unknown")) := by
  obtain ⟨es, cs, _, _, rfl⟩ := convert_document_some d outd h
  rfl

/-- The `author` entry of a converted document is the source `author`
with default `"Unknown"`. -/
theorem outd_author (d outd : Dict) (h : convert_document d = some outd) :
    outd.lookup "author" = some (Dict.getD d "author" (.str "Unknown")) := by
  obtain ⟨es, cs, _, _, rfl⟩ := convert_document_some d outd h
  rfl

/-- C10: the `"Unknown"` defaults for the document-level `name` and
`author` and the variant-level `name` apply only when the key is
entirely absent: a key present with any value — in particular the JSON
null — is passed through unchanged, never replaced by `"Unknown"`. -/
theorem unknown_default_only_when_absent (t out d outd : Dict)
    (hout : convert_theme t = some out)
    (houtd : convert_document d = some outd) :
    (∀ v, t.lookup "name" = some v → out.lookup "name" = some v)
    ∧ (t.lookup "name" = none → out.lookup "name" = some (.str "Unknown"))
    ∧ (∀ v, d.lookup "name" = some v → outd.lookup "name" = some v)
    ∧ (d.lookup "name" = none → outd.lookup "name" = some (.str "Unknown"))
    ∧ (∀ v, d.lookup "author" = some v → outd.lookup "author" = some v)
    ∧ (d.lookup "author" = none → outd.lookup "author" = some (.str "Unknown")) := by
  refine ⟨?_, ?_, ?_, ?_, ?_, ?_⟩
  · intro v hv
    rw [out_name t out hout, getD_present _ _ _ _ hv]
  · intro h0
    rw [out_name t out hout, getD_absent _ _ _ h0]
  · intro v hv
    rw [outd_name d outd houtd, getD_present _ _ _ _ hv]
  · intro h0
    rw [outd_name d outd houtd, getD_absent _ _ _ h0]
  · intro v hv
    rw [outd_author d outd houtd, getD_present _ _ _ _ hv]
  · intro h0
    rw [outd_author d outd houtd, getD_absent _ _ _ h0]

def c10w_t : Dict := [("name", JValue.null)]

def c10w_out : Dict := (convert_theme c10w_t).getD []

def c10w_d : Dict := [("name", JValue.null), ("author", JValue.null)]

def c10w_outd : Dict := (convert_document c10w_d).getD []

def c10w_d2 : Dict := []

def c10w_outd2 : Dict := (convert_document c10w_d2).getD []

/-- Witness for C10: a null `name`/`author` passes through as null,
and a fully absent key yields `"Unknown"`. -/
theorem unknown_default_only_when_absent_witness :
    c10w_out.lookup "name" = some JValue.null
    ∧ c10w_outd.lookup "name" = some JValue.null
    ∧ c10w_outd.lookup "author" = some JValue.null
    ∧ c10w_outd2.lookup "name" = some (.str "Unknown")
    ∧ c10w_outd2.lookup "author" = some (.str "Unknown") := by
  have h1 := unknown_default_only_when_absent c10w_t c10w_out c10w_d c10w_outd rfl rfl
  have h2 := unknown_default_only_when_absent c10w_t c10w_out c10w_d2 c10w_outd2 rfl rfl
  exact ⟨h1.1 JValue.null rfl, h1.2.2.1 JValue.null rfl,
    h1.2.2.2.2.1 JValue.null rfl, h2.2.2.2.1 rfl, h2.2.2.2.2.2 rfl⟩

/-- C8: the conversion is deterministic — the embedding is a function
of the document value alone (the source reads no clock, counter,
environment or other ambient state: its only inputs are the dict
values), so two invocations on the same source document value produce
identical output, for whole documents and for single variants. -/
theorem conversion_deterministic (d1 d2 : Dict) (h : d1 = d2) :
    convert_document d1 = convert_document d2
    ∧ convert_theme d1 = convert_theme d2 := by
  subst h
  exact ⟨rfl, rfl⟩

/-- Witness for C8 at the document `{name: "T"}`. -/
theorem conversion_deterministic_witness :
    convert_document [("name", JValue.str "T")] = convert_document [("name", JValue.str "T")]
    ∧ convert_theme [("name", JValue.str "T")] = convert_theme [("name", JValue.str "T")] :=
  conversion_deterministic [("name", JValue.str "T")] [("name", JValue.str "T")] rfl

/-- One Python call `d.get(k, dflt)` on an input dict, together with
the state of the dict after the call: `dict.get` reads and never
writes, so the dict comes back unchanged.  Threading every input dict
through each call it receives makes the absence of input mutation in
the script a provable statement rather than an artifact of a purely
functional embedding. -/
def getCall (d : Dict) (k : String) (dflt : JValue) : JValue × Dict :=
  (Dict.getD d k dflt, d)

/-- State-threaded `synEntry`: the three `value.get(...)` reads of one
raw syntax entry, returning the built entry and the raw entry dict
after the calls. -/
def synEntry_mut (fields : Dict) : Dict × Dict :=
  let (color, fields) := getCall fields "color" (.str "")
  let (fstyle, fields) := getCall fields "font_style" .null
  let (fweight, fields) := getCall fields "font_weight" .null
  let entry : Dict := [("color", color)]
  let entry := if truthy fstyle then entry ++ [("font_style", fstyle)] else entry
  let entry := if truthy fweight then entry ++ [("font_weight", fweight)] else entry
  (entry, fields)

/-- State-threaded `convert_syntax`: iterates the raw mapping, reading
each entry, and returns the converted mapping together with the state
of the raw mapping (including its nested entry dicts) after the loop. -/
def convert_syn_mut : Dict -> Dict × Dict
  | [] => ([], [])
  | (k, v) :: rest =>
      match v with
      | .obj fields =>
          let (entry, fields_after) := synEntry_mut fields
          let (syn_rest, rest_after) := convert_syn_mut rest
          ((k, .obj entry) :: syn_rest, (k, .obj fields_after) :: rest_after)
      | _ =>
          let (syn_rest, rest_after) := convert_syn_mut rest
          (syn_rest, (k, v) :: rest_after)

/-- The reads of one raw syntax entry leave it unchanged and build the
same entry as the pure conversion. -/
theorem synEntry_mut_eq (fields : Dict) : synEntry_mut fields = (synEntry fields, fields) :=
  rfl

/-- The state-threaded syntax conversion returns the raw mapping
unchanged. -/
theorem convert_syn_mut_snd (raw : Dict) : (convert_syn_mut raw).2 = raw := by
  induction raw with
  | nil => rfl
  | cons kv rest ih =>
      obtain ⟨k, v⟩ := kv
      cases v <;> simp [convert_syn_mut, synEntry_mut_eq, ih]

/-- The state-threaded syntax conversion computes the pure one. -/
theorem convert_syn_mut_fst (raw : Dict) : (convert_syn_mut raw).1 = convert_syn raw := by
  induction raw with
  | nil => rfl
  | cons kv rest ih =>
      obtain ⟨k, v⟩ := kv
      cases v <;> simp [convert_syn_mut, convert_syn, synEntry_mut_eq, ih]

set_option maxRecDepth 4000 in
/-- State-threaded `convert_theme`, transcribing every dict read of
the source in Python evaluation order (a nested default such as
`colors.get("border", ...)` inside another `get` is evaluated before
the outer call, and an f-string default before its `get`).  Returns
the built variant together with the final states of `old_theme`,
`colors`, `highlight` and the raw `syntax` mapping. -/
def convert_theme_mut (old_theme : Dict) :
    Option (Dict × Dict × Dict × Dict × Dict) := do
  let (colors_v, old_theme) := getCall old_theme "colors" (.obj [])
  let colors ← asObj colors_v
  let (highlight_v, old_theme) := getCall old_theme "highlight" (.obj [])
  let highlight ← asObj highlight_v
  let (mode, old_theme) := getCall old_theme "mode" (.str "dark")
  let appearance := if isLight mode then "light" else "dark"
  let (v1, colors) := getCall colors "background" (.str "#1a1b26")
  let (v2, colors) := getCall colors "foreground" (.str "#c0caf5")
  let (v3, colors) := getCall colors "muted.foreground" (.str "#565f89")
  let (v4, colors) := getCall colors "foreground" (.str "#c0caf5")
  let (v5, colors) := getCall colors "muted.foreground" (.str "#565f89")
  let (v6, colors) := getCall colors "muted.foreground" (.str "#565f89")
  let (v7, colors) := getCall colors "border" (.str "#292e42")
  let (v8, colors) := getCall colors "border" (.str "#292e42")
  let (v9, colors) := getCall colors "primary.background" (.str "#7aa2f7")
  let (v10, colors) := getCall colors "primary.background" (.str "#7aa2f7")
  let (v11, colors) := getCall colors "border" (.str "#292e42")
  let (v12, colors) := getCall colors "input.border" (v11)
  let (v13, colors) := getCall colors "muted.background" (.str "#292e42")
  let (v14, colors) := getCall colors "panel.background" (v13)
  let (v15, colors) := getCall colors "primary.background" (.str "#7aa2f7")
  let (v16, colors) := getCall colors "muted.background" (.str "#292e42")
  let (v17, colors) := getCall colors "primary.background" (.str "#7aa2f7")
  let (v18, colors) := getCall colors "background" (.str "#1a1b26")
  let (v19, colors) := getCall colors "popover.background" (v18)
  let (v20, colors) := getCall colors "muted.background" (.str "#292e42")
  let (v21, colors) := getCall colors "title_bar.background" (.str "#161720")
  let (v22, colors) := getCall colors "tab_bar.background" (v21)
  let (v23, colors) := getCall colors "background" (.str "#1a1b26")
  let (v24, colors) := getCall colors "tab.active.background" (v23)
  let (v25, colors) := getCall colors "muted.background" (.str "#292e42")
  let (v26, colors) := getCall colors "secondary.background" (v25)
  let (v27, colors) := getCall colors "muted.foreground" (.str "#565f89")
  let (v28, colors) := getCall colors "tab.foreground" (v27)
  let (v29, colors) := getCall colors "foreground" (.str "#c0caf5")
  let (v30, colors) := getCall colors "tab.active.foreground" (v29)
  let (v31, colors) := getCall colors "title_bar.background" (.str "#161720")
  let (v32, colors) := getCall colors "title_bar.background" (.str "#161720")
  let (v33, colors) := getCall colors "muted.background" (.str "#292e42")
  let (v34, colors) := getCall colors "panel.background" (v33)
  let (v35, colors) := getCall colors "title_bar.background" (.str "#161720")
  let (v36, colors) := getCall colors "foreground" (.str "#c0caf5")
  let (v37, colors) := getCall colors "muted.foreground" (.str "#565f89")
  let (v38, colors) := getCall colors "primary.background" (.str "#7aa2f7")
  let (v39, colors) := getCall colors "muted.foreground" (.str "#565f89")
  let (v40, colors) := getCall colors "muted.foreground" (.str "#565f89")
  let (v41, colors) := getCall colors "muted.background" (.str "#292e42")
  let (v42, colors) := getCall colors "secondary.background" (v41)
  let (v43, colors) := getCall colors "secondary.hover.background" (.str "#31374f")
  let (v44, colors) := getCall colors "primary.background" (.str "#7aa2f7")
  let (v45, colors) := getCall colors "list.active.background" (.str "#7aa2f722")
  let (v46, colors) := getCall colors "muted.foreground" (.str "#565f89")
  let (v47, colors) := getCall colors "list.active.background" (.str "#7aa2f711")
  let (v48, colors) := getCall colors "list.active.background" (.str "#7aa2f722")
  let (v49, colors) := getCall colors "list.active.background" (.str "#7aa2f722")
  let (v50, colors) := getCall colors "muted.foreground" (.str "#565f89")
  let (v51, colors) := getCall colors "list.active.background" (.str "#7aa2f722")
  let (v52, colors) := getCall colors "link.foreground" (.str "#7aa2f7")
  let (v53, colors) := getCall colors "link.hover.foreground" (v52)
  let (v54, colors) := getCall colors "scrollbar.background" (.str "#1a1b2600")
  let (v55, colors) := getCall colors "scrollbar.thumb.background" (.str "#414868")
  let (v56, colors) := getCall colors "primary.background" (.str "#7aa2f7")
  let (v57, colors) := getCall colors "background" (.str "#1a1b26")
  let (v58, highlight) := getCall highlight "editor.background" (v57)
  let (v59, colors) := getCall colors "foreground" (.str "#c0caf5")
  let (v60, highlight) := getCall highlight "editor.foreground" (v59)
  let (v61, colors) := getCall colors "background" (.str "#1a1b26")
  let (v62, highlight) := getCall highlight "editor.background" (v61)
  let (v63, highlight) := getCall highlight "editor.line_number" (.str "#565f89")
  let (v64, highlight) := getCall highlight "editor.active_line_number" (.str "#c0caf5")
  let (v65, highlight) := getCall highlight "editor.active_line.background" (.str "#292e42")
  let (v66, highlight) := getCall highlight "editor.active_line.background" (.str "#292e42")
  let (v67, colors) := getCall colors "muted.background" (.str "#292e42")
  let (v68, colors) := getCall colors "primary.background" (.str "#7aa2f7")
  let (v69, colors) := getCall colors "muted.background" (.str "#292e42")
  let (v70, colors) := getCall colors "primary.background" (.str "#7aa2f7")
  let (v71, colors) := getCall colors "muted.foreground" (.str "#565f89")
  let (v72, colors) := getCall colors "list.active.background" (.str "#7aa2f711")
  let (v73, colors) := getCall colors "list.active.background" (.str "#7aa2f722")
  let (v74, colors) := getCall colors "list.active.background" (.str "#7aa2f722")
  let (v75, highlight) := getCall highlight "conflict" (.str "#f7768e")
  let (v76, highlight) := getCall highlight "conflict" (.str "#f7768e")
  let (v77, highlight) := getCall highlight "conflict.background" (.str (pyStr v76 ++ "11"))
  let (v78, highlight) := getCall highlight "conflict" (.str "#f7768e")
  let (v79, highlight) := getCall highlight "conflict.border" (v78)
  let (v80, highlight) := getCall highlight "created" (.str "#9ece6a")
  let (v81, highlight) := getCall highlight "created" (.str "#9ece6a")
  let (v82, highlight) := getCall highlight "created.background" (.str (pyStr v81 ++ "11"))
  let (v83, highlight) := getCall highlight "created" (.str "#9ece6a")
  let (v84, highlight) := getCall highlight "created.border" (v83)
  let (v85, highlight) := getCall highlight "deleted" (.str "#f7768e")
  let (v86, highlight) := getCall highlight "deleted" (.str "#f7768e")
  let (v87, highlight) := getCall highlight "deleted.background" (.str (pyStr v86 ++ "11"))
  let (v88, highlight) := getCall highlight "deleted" (.str "#f7768e")
  let (v89, highlight) := getCall highlight "deleted.border" (v88)
  let (v90, highlight) := getCall highlight "error" (.str "#f7768e")
  let (v91, highlight) := getCall highlight "error" (.str "#f7768e")
  let (v92, highlight) := getCall highlight "error.background" (.str (pyStr v91 ++ "11"))
  let (v93, highlight) := getCall highlight "error" (.str "#f7768e")
  let (v94, highlight) := getCall highlight "error.border" (v93)
  let (v95, highlight) := getCall highlight "hidden" (.str "#565f89")
  let (v96, highlight) := getCall highlight "hidden.background" (.null)
  let (v97, highlight) := getCall highlight "hidden" (.str "#565f89")
  let (v98, highlight) := getCall highlight "hidden.border" (v97)
  let (v99, highlight) := getCall highlight "hint" (.str "#7dcfff")
  let (v100, highlight) := getCall highlight "hint" (.str "#7dcfff")
  let (v101, highlight) := getCall highlight "hint.background" (.str (pyStr v100 ++ "11"))
  let (v102, highlight) := getCall highlight "hint" (.str "#7dcfff")
  let (v103, highlight) := getCall highlight "hint.border" (v102)
  let (v104, highlight) := getCall highlight "ignored" (.str "#565f89")
  let (v105, highlight) := getCall highlight "ignored.background" (.null)
  let (v106, highlight) := getCall highlight "ignored" (.str "#565f89")
  let (v107, highlight) := getCall highlight "ignored.border" (v106)
  let (v108, highlight) := getCall highlight "info" (.str "#7aa2f7")
  let (v109, highlight) := getCall highlight "info" (.str "#7aa2f7")
  let (v110, highlight) := getCall highlight "info.background" (.str (pyStr v109 ++ "11"))
  let (v111, highlight) := getCall highlight "info" (.str "#7aa2f7")
  let (v112, highlight) := getCall highlight "info.border" (v111)
  let (v113, highlight) := getCall highlight "modified" (.str "#e0af68")
  let (v114, highlight) := getCall highlight "modified" (.str "#e0af68")
  let (v115, highlight) := getCall highlight "modified.background" (.str (pyStr v114 ++ "11"))
  let (v116, highlight) := getCall highlight "modified" (.str "#e0af68")
  let (v117, highlight) := getCall highlight "modified.border" (v116)
  let (v118, highlight) := getCall highlight "predictive" (.str "#565f89")
  let (v119, highlight) := getCall highlight "predictive.background" (.null)
  let (v120, highlight) := getCall highlight "predictive" (.str "#565f89")
  let (v121, highlight) := getCall highlight "predictive.border" (v120)
  let (v122, highlight) := getCall highlight "renamed" (.str "#7aa2f7")
  let (v123, highlight) := getCall highlight "renamed" (.str "#7aa2f7")
  let (v124, highlight) := getCall highlight "renamed.background" (.str (pyStr v123 ++ "11"))
  let (v125, highlight) := getCall highlight "renamed" (.str "#7aa2f7")
  let (v126, highlight) := getCall highlight "renamed.border" (v125)
  let (v127, highlight) := getCall highlight "success" (.str "#9ece6a")
  let (v128, highlight) := getCall highlight "success" (.str "#9ece6a")
  let (v129, highlight) := getCall highlight "success.background" (.str (pyStr v128 ++ "11"))
  let (v130, highlight) := getCall highlight "success" (.str "#9ece6a")
  let (v131, highlight) := getCall highlight "success.border" (v130)
  let (v132, highlight) := getCall highlight "unreachable" (.str "#565f89")
  let (v133, highlight) := getCall highlight "unreachable.background" (.null)
  let (v134, highlight) := getCall highlight "unreachable" (.str "#565f89")
  let (v135, highlight) := getCall highlight "unreachable.border" (v134)
  let (v136, highlight) := getCall highlight "warning" (.str "#e0af68")
  let (v137, highlight) := getCall highlight "warning" (.str "#e0af68")
  let (v138, highlight) := getCall highlight "warning.background" (.str (pyStr v137 ++ "11"))
  let (v139, highlight) := getCall highlight "warning" (.str "#e0af68")
  let (v140, highlight) := getCall highlight "warning.border" (v139)
  let (v141, highlight) := getCall highlight "syntax" (.obj [])
  let raw_syn ← asObj v141
  let (syn_out, raw_syn_after) := convert_syn_mut raw_syn
  let style : Dict :=
    [("background", v1),
     ("text", v2),
     ("text.muted", v3),
     ("text.accent", v4),
     ("text.placeholder", v5),
     ("text.disabled", v6),
     ("border", v7),
     ("border.variant", v8),
     ("border.focused", v9),
     ("border.selected", v10),
     ("border.disabled", v12),
     ("border.transparent", .null),
     ("panel.background", v14),
     ("panel.focused_border", v15),
     ("panel.indent_guide", v16),
     ("panel.indent_guide_active", v17),
     ("elevated_surface.background", v19),
     ("surface.background", v20),
     ("tab_bar.background", v22),
     ("tab.active_background", v24),
     ("tab.inactive_background", v26),
     ("tab.text", v28),
     ("tab.active_text", v30),
     ("title_bar.background", v31),
     ("title_bar.inactive_background", v32),
     ("toolbar.background", v34),
     ("status_bar.background", v35),
     ("icon", v36),
     ("icon.muted", v37),
     ("icon.accent", v38),
     ("icon.disabled", v39),
     ("icon.placeholder", v40),
     ("element.background", v42),
     ("element.hover", v43),
     ("element.active", v44),
     ("element.selected", v45),
     ("element.disabled", v46),
     ("ghost_element.hover", v47),
     ("ghost_element.active", v48),
     ("ghost_element.selected", v49),
     ("ghost_element.disabled", v50),
     ("drop_target.background", v51),
     ("link_text.hover", v53),
     ("scrollbar.track.background", v54),
     ("scrollbar.track.border", .null),
     ("scrollbar.thumb.background", v55),
     ("scrollbar.thumb.border", .null),
     ("scrollbar.thumb.hover_background", v56),
     ("editor.background", v58),
     ("editor.foreground", v60),
     ("editor.gutter.background", v62),
     ("editor.line_number", v63),
     ("editor.active_line_number", v64),
     ("editor.active_line.background", v65),
     ("editor.highlighted_line.background", v66),
     ("editor.indent_guide", v67),
     ("editor.indent_guide_active", v68),
     ("editor.wrap_guide", v69),
     ("editor.active_wrap_guide", v70),
     ("editor.invisible", v71),
     ("editor.document_highlight.read_background", v72),
     ("editor.document_highlight.write_background", v73),
     ("editor.document_highlight.bracket_background", v74),
     ("search.match_background", .str "#e0af6844"),
     ("conflict", v75),
     ("conflict.background", v77),
     ("conflict.border", v79),
     ("created", v80),
     ("created.background", v82),
     ("created.border", v84),
     ("deleted", v85),
     ("deleted.background", v87),
     ("deleted.border", v89),
     ("error", v90),
     ("error.background", v92),
     ("error.border", v94),
     ("hidden", v95),
     ("hidden.background", v96),
     ("hidden.border", v98),
     ("hint", v99),
     ("hint.background", v101),
     ("hint.border", v103),
     ("ignored", v104),
     ("ignored.background", v105),
     ("ignored.border", v107),
     ("info", v108),
     ("info.background", v110),
     ("info.border", v112),
     ("modified", v113),
     ("modified.background", v115),
     ("modified.border", v117),
     ("predictive", v118),
     ("predictive.background", v119),
     ("predictive.border", v121),
     ("renamed", v122),
     ("renamed.background", v124),
     ("renamed.border", v126),
     ("success", v127),
     ("success.background", v129),
     ("success.border", v131),
     ("unreachable", v132),
     ("unreachable.background", v133),
     ("unreachable.border", v135),
     ("warning", v136),
     ("warning.background", v138),
     ("warning.border", v140),
     ("syntax", .obj syn_out),
     ("players", players)]
  let (name_v, old_theme) := getCall old_theme "name" (.str "Unknown")
  some ([("name", name_v), ("appearance", .str appearance), ("style", .obj style)],
        old_theme, colors, highlight, raw_syn_after)

set_option maxRecDepth 8000 in
/-- C9: neither the syntax conversion nor the variant conversion
mutates its input.  In the state-threaded transcription, where every
`dict.get` call carries the dict state through, a successful run
returns `old_theme` exactly as given, returns the `colors`,
`highlight` and raw `syntax` mappings exactly as read from it, and
produces as output precisely the freshly constructed dict of the pure
conversion; likewise the threaded syntax conversion returns its raw
mapping (with all nested entry dicts) unchanged. -/
theorem no_input_mutation (t : Dict) (res : Dict × Dict × Dict × Dict × Dict)
    (h : convert_theme_mut t = some res) (raw2 : Dict) :
    res.2.1 = t
    ∧ asObj (Dict.getD t "colors" (.obj [])) = some res.2.2.1
    ∧ asObj (Dict.getD t "highlight" (.obj [])) = some res.2.2.2.1
    ∧ asObj (Dict.getD res.2.2.2.1 "syntax" (.obj [])) = some res.2.2.2.2
    ∧ convert_theme t = some res.1
    ∧ (convert_syn_mut raw2).2 = raw2
    ∧ (convert_syn_mut raw2).1 = convert_syn raw2 := by
  rcases hc : asObj (Dict.getD t "colors" (.obj [])) with _ | colors
  · simp [convert_theme_mut, getCall, hc] at h
  rcases hh : asObj (Dict.getD t "highlight" (.obj [])) with _ | highlight
  · simp [convert_theme_mut, getCall, hc, hh] at h
  rcases hs : asObj (Dict.getD highlight "syntax" (.obj [])) with _ | raw
  · simp [convert_theme_mut, getCall, hc, hh, hs] at h
  simp only [convert_theme_mut, getCall, hc, hh, hs, Option.some_bind,
    Option.bind_eq_bind, Option.some.injEq] at h
  subst h
  refine ⟨rfl, rfl, rfl, ?_, ?_, convert_syn_mut_snd raw2, convert_syn_mut_fst raw2⟩
  · show asObj (Dict.getD highlight "syntax" (JValue.obj [])) = some ((convert_syn_mut raw).2)
    rw [convert_syn_mut_snd raw]
    exact hs
  · rw [convert_theme]
    simp only [hc, hh, hs, Option.some_bind, Option.bind_eq_bind]
    rw [convert_syn_mut_fst raw]
    rfl

def c9w_t : Dict :=
  [("highlight", .obj [("syntax", .obj [("keyword", .obj [("color", .str "#00f")])])])]

def c9w_res : Dict × Dict × Dict × Dict × Dict :=
  (convert_theme_mut c9w_t).getD ([], [], [], [], [])

def c9w_raw : Dict := [("keyword", .obj [("color", .str "#00f")])]

set_option maxRecDepth 8000 in
/-- Witness for C9 at a variant with a one-entry syntax mapping. -/
theorem no_input_mutation_witness :
    c9w_res.2.1 = c9w_t
    ∧ asObj (Dict.getD c9w_t "colors" (.obj [])) = some c9w_res.2.2.1
    ∧ asObj (Dict.getD c9w_t "highlight" (.obj [])) = some c9w_res.2.2.2.1
    ∧ asObj (Dict.getD c9w_res.2.2.2.1 "syntax" (.obj [])) = some c9w_res.2.2.2.2
    ∧ convert_theme c9w_t = some c9w_res.1
    ∧ (convert_syn_mut c9w_raw).2 = c9w_raw
    ∧ (convert_syn_mut c9w_raw).1 = convert_syn c9w_raw :=
  no_input_mutation c9w_t c9w_res rfl c9w_raw

end ConvertThemes
